import Mathlib

/-!
Verification of the EDRN DICOM validation engine (jpl.labcas.validation).

This file shallowly embeds the data model and the operations of the Python
sources under `src/jpl/labcas/validation/` — the finding classes and their
persistence (`_classes.py`, `main.py`), the heuristic PHI/PII recognizer
(`phi_pii_recognizers/_simple_scoring.py`), the regex validator framework
(`validators/_base.py`, `_functions.py`) and the two report-generation
paths (`_classes.py`, `Report.generate_csv_report`) — and proves or refutes
the specification claims about them.

Modelling conventions:
* Python floats are modelled as rationals (`ℚ`); all score constants in the
  source are short decimals, and every claim checked here is far from any
  binary-rounding boundary.
* Python exceptions are modelled with `Except`/`Option`; an operation that
  would raise returns `.error`/`none`.
* Python regular expressions are implemented as executable character-list
  matchers, one per pattern, each annotated with the regex it implements.
-/

namespace LabcasValidation

/-! ## Generic helpers (character classes, stable sorting, deduplication) -/

/-- ASCII uppercase letter, the class `[A-Z]`. -/
def isUpperAZ (c : Char) : Bool := 'A' ≤ c && c ≤ 'Z'

/-- ASCII lowercase letter, the class `[a-z]`. -/
def isLowerAZ (c : Char) : Bool := 'a' ≤ c && c ≤ 'z'

/-- ASCII digit, the class `[0-9]`. -/
def isDigit09 (c : Char) : Bool := '0' ≤ c && c ≤ '9'

/-- ASCII letter. -/
def isAlphaAZ (c : Char) : Bool := isUpperAZ c || isLowerAZ c

/-- Alphanumeric ASCII character. -/
def isAlnumAZ (c : Char) : Bool := isAlphaAZ c || isDigit09 c

/-- Python regex word character `\w` (ASCII fragment: letters, digits, underscore).
The source strings exercised by the claims are ASCII. -/
def isWordChar (c : Char) : Bool := isAlnumAZ c || c == '_'

/-- Python regex whitespace `\s`: space, tab, newline, carriage return,
vertical tab and form feed. -/
def isSpaceChar (c : Char) : Bool :=
  c == ' ' || c == '\t' || c == '\n' || c == '\r' || c == Char.ofNat 11 || c == Char.ofNat 12

/-- The apostrophe character, written by code point to keep literals simple. -/
def apoChar : Char := Char.ofNat 39

/-- Python `str.strip()` (ASCII whitespace fragment), defined over the
character list so it evaluates by kernel reduction. -/
def pyStrip (s : String) : String :=
  String.mk (((s.data.dropWhile isSpaceChar).reverse.dropWhile isSpaceChar).reverse)

/-- Python `str.upper()` on ASCII letters. -/
def asciiUpper (s : String) : String := String.mk (s.data.map Char.toUpper)

/-- Python `str.lower()` on ASCII letters. -/
def asciiLower (s : String) : String := String.mk (s.data.map Char.toLower)

/-- A regex word boundary `\b` between an optional previous and next character:
exactly one side is a word character (a missing side counts as non-word). -/
def atBoundary (prev next : Option Char) : Bool :=
  (match prev with | some c => isWordChar c | none => false) !=
  (match next with | some c => isWordChar c | none => false)

/-- Consume a nonempty maximal run of characters satisfying `p` (regex `p+`,
greedy); `none` when the first character does not satisfy `p`. -/
def takeWhile1 (p : Char → Bool) (cs : List Char) : Option (List Char × List Char) :=
  let t := cs.takeWhile p
  if t.isEmpty then none else some (t, cs.drop t.length)

/-- Deduplicate a list keeping the first occurrence of each element, as the
Python `seen`-set loops do. -/
def dedupFirstSeen [DecidableEq α] (xs : List α) : List α :=
  (xs.foldl (fun acc x => if x ∈ acc then acc else acc ++ [x]) [])

/-- Stable insertion with respect to a strict comparator: `a` is placed before
the first element `b` with `lt a b` false becoming... it is inserted after all
elements `b` with `lt b a`, and before the first element not below it, so
elements comparing equal keep their original relative order. -/
def insertBy (lt : α → α → Bool) (a : α) : List α → List α
  | [] => [a]
  | b :: bs => if lt b a then b :: insertBy lt a bs else a :: b :: bs

/-- Stable sort by a strict comparator, modelling Python `sorted`/`list.sort`
(Timsort is stable). -/
def isortBy (lt : α → α → Bool) : List α → List α
  | [] => []
  | x :: xs => insertBy lt x (isortBy lt xs)

/-- Code-point lexicographic comparison of character lists, the order
Python string comparison and SQLite text ordering agree on (written
explicitly so it evaluates by kernel reduction). -/
def strLtAux : List Char → List Char → Bool
  | [], [] => false
  | [], _ :: _ => true
  | _ :: _, [] => false
  | a :: as, b :: bs =>
      if a.toNat < b.toNat then true
      else if b.toNat < a.toNat then false
      else strLtAux as bs

/-- Python `a < b` on strings. -/
def strLt (a b : String) : Bool := strLtAux a.data b.data

/-- Python `sorted(set(xs))`: deduplicate, then sort ascending. -/
def sortedDedup (xs : List String) : List String :=
  isortBy strLt (dedupFirstSeen xs)

/-- Substring test on character lists (Python `needle in haystack`). -/
def listHasInfix [DecidableEq α] (needle : List α) : List α → Bool
  | [] => needle.isEmpty
  | c :: cs => needle.isPrefixOf (c :: cs) || listHasInfix needle cs

/-- Python `needle in haystack` on strings. -/
def strContains (haystack needle : String) : Bool :=
  listHasInfix needle.data haystack.data

/-- Python `os.path.basename` for POSIX paths: everything after the last `/`. -/
def basename (s : String) : String :=
  String.mk ((s.data.reverse.takeWhile (fun c => c != '/')).reverse)

/-- The Python comma-space join of a list of strings. -/
def joinComma : List String → String
  | [] => ""
  | [x] => x
  | x :: xs => x ++ ", " ++ joinComma xs

/-- Join report parts where a part may be Python `None`; joining a `None`
part would raise `TypeError` in Python, modelled as `none`. -/
def joinPartsOpt (parts : List (Option String)) : Option String :=
  (parts.mapM id).map joinComma

/-- Parse a nonempty all-digit string as a natural number (the well-formed
fragment of Python `int(...)`; anything else raises, modelled as `none`). -/
def parseNatDigits (s : String) : Option Nat :=
  if s.data ≠ [] && s.data.all isDigit09 then
    some (s.data.foldl (fun acc c => acc * 10 + (c.toNat - '0'.toNat)) 0)
  else none

/-- Split a string on a separator character (Python `str.split(sep)` for a
one-character separator). -/
def splitOnChar (sep : Char) (s : String) : List String :=
  (s.data.foldr
    (fun c acc =>
      match acc with
      | [] => [[c]]
      | g :: gs => if c == sep then [] :: (g :: gs) else (c :: g) :: gs)
    [[]]).map String.mk

/-- One lowercase hexadecimal digit. -/
def hexDigit (n : Nat) : Char :=
  if n < 10 then Char.ofNat ('0'.toNat + n) else Char.ofNat ('a'.toNat + (n - 10))

/-- Four-digit lowercase hexadecimal rendering, as pydicom formats tag parts. -/
def hex4 (n : Nat) : String :=
  String.mk [hexDigit (n / 4096 % 16), hexDigit (n / 256 % 16), hexDigit (n / 16 % 16), hexDigit (n % 16)]

/-! ## Data model: tags, file descriptors, findings (`_classes.py`) -/

/-- A DICOM tag: a (group, element) pair, `pydicom.tag.Tag`. -/
structure Tag where
  group : Nat
  element : Nat
deriving DecidableEq, Repr, Inhabited

/-- pydicom renders a tag as `(gggg, eeee)` in lowercase hex. -/
def tagToStr (t : Tag) : String :=
  "(" ++ hex4 t.group ++ ", " ++ hex4 t.element ++ ")"

/-- pydicom `Tag` is an `int` subclass, so Python truthiness of an optional
tag is: not `None` and not the zero tag `(0000,0000)`. -/
def tagTruthy : Option Tag → Bool
  | none => false
  | some t => !(t.group == 0 && t.element == 0)

/-- Python truthiness of an optional string: `None` and the empty string
are falsy. -/
def strTruthy : Option String → Bool
  | none => false
  | some s => s ≠ ""

/-- Modelled from the external pydicom data dictionary
(`pydicom.datadict.keyword_for_tag`), restricted to the tags this
development evaluates; unknown tags give the empty string, as pydicom does. -/
def keywordForTag (t : Tag) : String :=
  if t = ⟨0x0010, 0x0010⟩ then "PatientName"
  else if t = ⟨0x0010, 0x0030⟩ then "PatientBirthDate"
  else if t = ⟨0x0010, 0x1000⟩ then "OtherPatientIDs"
  else if t = ⟨0x0010, 0x1001⟩ then "OtherPatientNames"
  else if t = ⟨0x0010, 0x4000⟩ then "PatientComments"
  else if t = ⟨0x0008, 0x0090⟩ then "ReferringPhysicianName"
  else if t = ⟨0x0008, 0x1048⟩ then "PhysiciansOfRecord"
  else if t = ⟨0x0008, 0x1050⟩ then "PerformingPhysicianName"
  else if t = ⟨0x0008, 0x1060⟩ then "NameOfPhysiciansReadingStudy"
  else if t = ⟨0x0008, 0x1070⟩ then "OperatorsName"
  else if t = ⟨0x0008, 0x0060⟩ then "Modality"
  else if t = ⟨0x0008, 0x0020⟩ then "StudyDate"
  else ""

/-- `PotentialFile`: a candidate file with its derived organizational keys
(path, blinded site ID, event ID, file name). -/
structure PotentialFile where
  path : String
  site_id : String
  event_id : String
  file_name : String
deriving DecidableEq, Repr

/-- Attempt to match `_organization_re` — the regex `([^/]+)/(\d{7})/(.+)$` —
anchored at the start of `cs`: a nonempty run of non-slash characters, a
slash, exactly seven digits, a slash, and a nonempty remainder. The first
group cannot backtrack past the following slash, so the match is exact. -/
def organizationMatchAt (cs : List Char) : Option (String × String × String) :=
  match takeWhile1 (fun c => c != '/') cs with
  | none => none
  | some (site, rest) =>
      match rest with
      | '/' :: r2 =>
          let ev := r2.take 7
          if ev.length = 7 && ev.all isDigit09 then
            match r2.drop 7 with
            | '/' :: r3 =>
                if r3.isEmpty || r3.any (fun c => c == '\n') then none
                else some (String.mk site, String.mk ev, String.mk r3)
            | _ => none
          else none
      | _ => none

/-- `re.search` of `_organization_re` over a path: the leftmost start
position at which the pattern matches. -/
def organizationSearchAux : List Char → Option (String × String × String)
  | [] => none
  | c :: cs =>
      match organizationMatchAt (c :: cs) with
      | some r => some r
      | none => organizationSearchAux cs

/-- `PotentialFile._organization_re.search(path)` on a string. -/
def organizationSearch (path : String) : Option (String × String × String) :=
  organizationSearchAux path.data

/-- The `PotentialFile.__init__` constructor: derive site/event/file-name
from the path (sentinels and basename when the regex does not match), then
override site and event when truthy (non-`None`, nonempty) arguments are
given. -/
def PotentialFile.construct (path : String) (site_id event_id : Option String) : PotentialFile :=
  let base := match organizationSearch path with
    | some (s, e, f) => PotentialFile.mk path s e f
    | none => PotentialFile.mk path "«unknown site»" "«unknown event»" (basename path)
  let base1 := match site_id with
    | some s => if s = "" then base else { base with site_id := s }
    | none => base
  match event_id with
  | some e => if e = "" then base1 else { base1 with event_id := e }
  | none => base1

/-- The value stored in a finding's `file` attribute. Python is dynamically
typed: `_classes.Finding` declares `file: PotentialFile`, but the recognizer
(`_simple_scoring.py`) assigns `ds.filename`, a plain string, to it. The
embedding distinguishes the two so that attribute access on the string can
be modelled as the `AttributeError` it raises. -/
inductive FileRef where
  | descriptor : PotentialFile → FileRef
  | rawPath : String → FileRef
deriving DecidableEq, Repr

/-- The closed tagged union of finding variants. Fields follow the dataclass
fields of `_classes.py`: `ErrorFinding` (error_message), `ValidationFinding`
and `HeaderFinding` (tag, description), `ImageFinding` (pattern, index).
The `warning` variant is Modelled from the spec: `WarningFinding` is imported
from `_classes` by `validators/_base.py` but its class is missing from the
sources; the spec gives it the extra fields tag and description with meaning
"rule matched except for letter case". -/
inductive Finding where
  | error (file : FileRef) (value : String) (score : ℚ) (error_message : Option String)
  | validation (file : FileRef) (value : String) (score : ℚ) (tag : Option Tag) (description : Option String)
  | header (file : FileRef) (value : String) (score : ℚ) (tag : Option Tag) (description : Option String)
  | image (file : FileRef) (value : String) (score : ℚ) (pattern : String) (index : Int)
  | warning (file : FileRef) (value : String) (score : ℚ) (tag : Option Tag) (description : Option String)
deriving DecidableEq, Repr

/-- The default severity of a finding (`Finding.score = 1.0` in `_classes.py`). -/
def defaultFindingScore : ℚ := 1

/-- `IMAGE_SCORE` from `const.py`: the fixed score 0.8 of image findings
(written with `mkRat` so it evaluates by kernel reduction). -/
def IMAGE_SCORE : ℚ := mkRat 8 10

/-- `PHI_PII_THRESHOLD` from `const.py`: the default reporting threshold 0.8. -/
def PHI_PII_THRESHOLD : ℚ := mkRat 8 10

namespace Finding

/-- The file reference carried by the finding. -/
def file : Finding → FileRef
  | .error f .. | .validation f .. | .header f .. | .image f .. | .warning f .. => f

/-- The finding's text value. -/
def value : Finding → String
  | .error _ v .. | .validation _ v .. | .header _ v .. | .image _ v .. | .warning _ v .. => v

/-- The finding's severity score. -/
def score : Finding → ℚ
  | .error _ _ s .. | .validation _ _ s .. | .header _ _ s .. | .image _ _ s .. | .warning _ _ s .. => s

/-- The Python class name of the variant, used as the persistence
discriminator (`self.__class__.__name__`). -/
def typeName : Finding → String
  | .error .. => "ErrorFinding"
  | .validation .. => "ValidationFinding"
  | .header .. => "HeaderFinding"
  | .image .. => "ImageFinding"
  | .warning .. => "WarningFinding"

/-- `kind()` of each variant, per `_classes.py` (the warning label is
Modelled from the spec, which only requires it to be distinct). -/
def kind : Finding → String
  | .error .. => "❌ Error"
  | .validation .. => "⚠️ Missing Required Tags"
  | .header .. => "🙈 Possible PHI/PII in Header"
  | .image .. => "🖼️ Possible Burned-in PHI/PII (Pixels)"
  | .warning .. => "⚠️ Warning"

end Finding

/-- Python `f-string` two-decimal formatting `:.2f` of a nonnegative score,
used by `HeaderFinding.report`. Rounds half away from zero where Python
rounds half to even; the scores this development prints are not on a
half-hundredth boundary. -/
def formatScore2 (q : ℚ) : String :=
  let n : Int := ⌊q * 100 + 1 / 2⌋
  let ip := n / 100
  let fp := (n % 100).toNat
  toString ip ++ "." ++ (if fp < 10 then "0" else "") ++ toString fp

namespace Finding

/-- `report()` of each variant, per `_classes.py`. Entries are optional
because `ErrorFinding.report` can contain Python `None`
(`[self.value, self.error_message]`). `ValidationFinding.report` renders a
`None` tag as the string `None` (the f-string interpolates it), while
`HeaderFinding.report` replaces the whole cell by `unknown tag`. -/
def report : Finding → List (Option String)
  | .error _ v _ msg => [some v, msg]
  | .validation _ v _ tag descr =>
      let detail := if strTruthy descr then
          "Failed core tag validation: " ++ descr.getD "" ++ " — please review for completeness and format"
        else "Failed core tag validation — please review for completeness and format"
      let tagName := if tagTruthy tag then keywordForTag tag.get! else "unknown tag"
      let tagCell := (match tag with | some t => tagToStr t | none => "None") ++ " (" ++ tagName ++ ")"
      [some tagCell, some ("«" ++ v ++ "»"), some detail]
  | .header _ v s tag descr =>
      let detail := if strTruthy descr then
          "Possible PHI/PII detection (score " ++ formatScore2 s ++ "): " ++ descr.getD ""
        else "Possible PHI/PII detection (score " ++ formatScore2 s ++ ")"
      let tagCell := if tagTruthy tag then tagToStr tag.get! ++ " (" ++ keywordForTag tag.get! ++ ")"
        else "unknown tag"
      [some tagCell, some ("«" ++ v ++ "»"), some detail]
  | .image _ v _ pat idx => [some v, some ("Detected with pattern " ++ pat ++ " at frame index " ++ toString idx)]
  | .warning _ v _ _ descr => [some v, some (descr.getD "")]

/-- `organization_parts()`: the blinded site ID, event ID and — despite the
docstring saying file name — the file's `path`. Reading the attributes of a
string-valued `file` raises `AttributeError`, modelled as `none`. -/
def organizationParts (f : Finding) : Option (String × String × String) :=
  match f.file with
  | .descriptor pf => some (pf.site_id, pf.event_id, pf.path)
  | .rawPath _ => none

/-- `generate_database_fields()`: the per-variant persistence payload
`(finding_type, description, pattern, index, tag)`. The warning case is
Modelled from the spec's persistence contract (discriminator plus optional
description/pattern/frame-index/tag slots). -/
def generateDatabaseFields (f : Finding) :
    String × Option String × Option String × Option Int × Option Tag :=
  match f with
  | .error _ _ _ msg => ("ErrorFinding", msg, none, none, none)
  | .validation _ _ _ tag descr => ("ValidationFinding", descr, none, none, tag)
  | .header _ _ _ tag descr => ("HeaderFinding", descr, none, none, tag)
  | .image _ _ _ pat idx => ("ImageFinding", none, some pat, some idx, none)
  | .warning _ _ _ tag descr => ("WarningFinding", descr, none, none, tag)

end Finding

/-! ## Durable store rows (`main.py`: `_write_finding_to_db`,
`_load_findings_from_db`) -/

/-- One row of the `findings` table (schema in `_create_findings_db`). -/
structure DBRow where
  file_path : String
  site_id : String
  event_id : String
  file_name : String
  finding_type : String
  value : String
  score : ℚ
  tag : Option String
  description : Option String
  pattern : Option String
  index_val : Option Int
deriving DecidableEq, Repr

/-- `_write_finding_to_db`: serialize a finding into a row. The tag is
stored as the decimal string `group,element` when truthy. Reading
`finding.file.path` on a string-valued `file` raises `AttributeError`,
modelled as `none`. -/
def writeFindingToDb (f : Finding) : Option DBRow :=
  match f.file with
  | .rawPath _ => none
  | .descriptor pf =>
      let (ftype, descr, pat, idx, tagObj) := f.generateDatabaseFields
      let tagStr := if tagTruthy tagObj then
          some (toString tagObj.get!.group ++ "," ++ toString tagObj.get!.element)
        else none
      some {
        file_path := pf.path, site_id := pf.site_id, event_id := pf.event_id,
        file_name := pf.file_name, finding_type := ftype, value := f.value,
        score := f.score, tag := tagStr, description := descr, pattern := pat,
        index_val := idx }

/-- Python `x or default` for an optional integer: `None` and `0` are falsy. -/
def pyOrInt (x : Option Int) (d : Int) : Int :=
  match x with
  | some v => if v = 0 then d else v
  | none => d

/-- Python `x or default` for an optional string: `None` and `""` are falsy. -/
def pyOrStr (x : Option String) (d : String) : String :=
  match x with
  | some v => if v = "" then d else v
  | none => d

/-- Tag reconstruction in `_load_findings_from_db`: parse `group,element`
(decimal); any parse failure leaves the tag as `None`. -/
def parseTagStr (s : String) : Option Tag :=
  match splitOnChar ',' s with
  | [g, e] =>
      match parseNatDigits g, parseNatDigits e with
      | some gn, some en => some ⟨gn, en⟩
      | _, _ => none
  | _ => none

/-- `_load_findings_from_db`, restricted to one row: rebuild the
`PotentialFile` from the stored path/site/event and dispatch on the
discriminator; an unknown discriminator is skipped (`none`). The image
branch is `ImageFinding(pattern=pattern or 'unknown', index=index_val or -1)`. -/
def loadFindingFromDb (r : DBRow) : Option Finding :=
  let pf : PotentialFile := PotentialFile.construct r.file_path (some r.site_id) (some r.event_id)
  let tagObj : Option Tag := r.tag.bind parseTagStr
  if r.finding_type = "ErrorFinding" then
    some (.error (.descriptor pf) r.value r.score r.description)
  else if r.finding_type = "ValidationFinding" then
    some (.validation (.descriptor pf) r.value r.score tagObj r.description)
  else if r.finding_type = "HeaderFinding" then
    some (.header (.descriptor pf) r.value r.score tagObj r.description)
  else if r.finding_type = "ImageFinding" then
    some (.image (.descriptor pf) r.value r.score (pyOrStr r.pattern "unknown") (pyOrInt r.index_val (-1)))
  else none

/-! ## Executable pattern matchers (`_simple_scoring.py` regexes)

Each Python regex is implemented as a matcher of type
`Option Char → List Char → Option (List Char)`: given the character before
the current position (for `\b`) and the remaining input, return the input
left after a match starting exactly here, or `none`. `re.search` is the
disjunction of matches over all start positions. -/

/-- First alternative that produces a value, modelling regex backtracking
over an explicit list of alternatives (greedy alternative first). -/
def firstSome (l : List α) (f : α → Option β) : Option β :=
  l.foldl (fun acc a => acc <|> f a) none

/-- `re.search`: does the matcher succeed at any start position? -/
def searchAux (m : Option Char → List Char → Option (List Char)) :
    Option Char → List Char → Bool
  | prev, [] => (m prev []).isSome
  | prev, c :: cs => (m prev (c :: cs)).isSome || searchAux m (some c) cs

/-- `re.search` over a string. -/
def regexSearch (m : Option Char → List Char → Option (List Char)) (s : String) : Bool :=
  searchAux m none s.data

/-- Exactly `n` digits, the regex `\d{n}`. -/
def exactDigits (n : Nat) (cs : List Char) : Option (List Char) :=
  let t := cs.take n
  if t.length = n && t.all isDigit09 then some (cs.drop n) else none

/-- Greedy-first alternatives for an optional single character `X?`. -/
def optConsume (p : Char → Bool) (cs : List Char) : List (List Char) :=
  match cs with
  | c :: rest => if p c then [rest, cs] else [cs]
  | [] => [cs]

/-- Greedy-first alternatives for `\d{lo,hi}`. -/
def digitsRange (lo hi : Nat) (cs : List Char) : List (List Char) :=
  let run := (cs.takeWhile isDigit09).length
  (List.range (hi + 1)).reverse.filterMap (fun k =>
    if lo ≤ k ∧ k ≤ run then some (cs.drop k) else none)

/-- Case-insensitive literal, the regex of an alternation branch compiled
with `re.IGNORECASE` (ASCII letters). -/
def ciLit (pat : String) (cs : List Char) : Option (List Char) :=
  let p := pat.data
  if p.length ≤ cs.length && (cs.take p.length).map Char.toUpper == p.map Char.toUpper
  then some (cs.drop p.length) else none

/-- Greedy class run of at least `minLen` characters followed by a word
boundary, with backtracking: the regex `[cls]{minLen,}\b`. -/
def runThenBoundary (cls : Char → Bool) (minLen : Nat) (cs : List Char) : Option (List Char) :=
  let t := cs.takeWhile cls
  let rest := cs.drop t.length
  firstSome (List.range (t.length + 1)).reverse (fun k =>
    if k < minLen then none
    else match t.get? (k - 1) with
      | none => none
      | some lastC =>
          let nextC := if k < t.length then t.get? k else rest.head?
          if atBoundary (some lastC) nextC then some (t.drop k ++ rest) else none)

/-- Character class of the EMAIL local part, `[A-Z0-9._%+-]` (IGNORECASE). -/
def emailLocalChar (c : Char) : Bool :=
  isAlnumAZ c || c == '.' || c == '_' || c == '%' || c == '+' || c == '-'

/-- Character class of the EMAIL domain part, `[A-Z0-9.-]` (IGNORECASE). -/
def emailDomainChar (c : Char) : Bool := isAlnumAZ c || c == '.' || c == '-'

/-- Inside a maximal domain-character run, the index of the last dot that is
preceded by at least one character and followed by at least two letters:
the backtracking point of `[A-Z0-9.-]+\.[A-Z]{2,}`. -/
def emailDotIndex (d : List Char) : Option Nat :=
  ((List.range d.length).filter (fun j =>
    decide (0 < j) && (d.get? j == some '.') &&
    (match d.get? (j+1), d.get? (j+2) with
     | some a, some b => isAlphaAZ a && isAlphaAZ b
     | _, _ => false))).getLast?

/-- The EMAIL pattern `[A-Z0-9._%+-]+@[A-Z0-9.-]+\.[A-Z]{2,}` (IGNORECASE).
The local run cannot backtrack past the `@`, and the domain tail lies inside
the maximal domain run, ending after the greedy letter run of the last
viable dot. -/
def emailAfter (_ : Option Char) (cs : List Char) : Option (List Char) :=
  match takeWhile1 emailLocalChar cs with
  | none => none
  | some (_, rest) =>
      match rest with
      | '@' :: r2 =>
          match takeWhile1 emailDomainChar r2 with
          | none => none
          | some (d, r3) =>
              match emailDotIndex d with
              | none => none
              | some j =>
                  let k := ((d.drop (j+1)).takeWhile isAlphaAZ).length
                  some (d.drop (j + 1 + k) ++ r3)
      | _ => none

/-- Separator class `[-.\s]` of the PHONE pattern. -/
def phoneSep (c : Char) : Bool := c == '-' || c == '.' || isSpaceChar c

/-- The anchored tail `(?:\(?\d{3}\)?[-.\s]?\d{3}[-.\s]?\d{4})\b` of the
PHONE pattern, with greedy-first backtracking through the optional parts;
the final `\b` sits after a digit, so it holds iff the next character is not
a word character. -/
def phoneCore (cs : List Char) : Option (List Char) :=
  firstSome (optConsume (fun c => c == '(') cs) (fun cs1 =>
    (exactDigits 3 cs1).bind (fun cs2 =>
      firstSome (optConsume (fun c => c == ')') cs2) (fun cs3 =>
        firstSome (optConsume phoneSep cs3) (fun cs4 =>
          (exactDigits 3 cs4).bind (fun cs5 =>
            firstSome (optConsume phoneSep cs5) (fun cs6 =>
              (exactDigits 4 cs6).bind (fun cs7 =>
                if atBoundary (some '0') cs7.head? then some cs7 else none)))))))

/-- The PHONE pattern `\b(?:\+\d{1,3}[-.\s]?)?(?:\(?\d{3}\)?[-.\s]?\d{3}[-.\s]?\d{4})\b`.
The leading `\b` is checked against the actual next input character. -/
def phoneAfter (prev : Option Char) (cs : List Char) : Option (List Char) :=
  if !atBoundary prev cs.head? then none
  else
    let withPlus : Option (List Char) :=
      match cs with
      | '+' :: r1 =>
          firstSome [3, 2, 1] (fun k =>
            (exactDigits k r1).bind (fun r2 =>
              firstSome (optConsume phoneSep r2) phoneCore))
      | _ => none
    withPlus <|> phoneCore cs

/-- Separator class `[- ]` of the SSN pattern. -/
def ssnSep (c : Char) : Bool := c == '-' || c == ' '

/-- The SSN pattern `\b\d{3}[- ]?\d{2}[- ]?\d{4}\b`. -/
def ssnAfter (prev : Option Char) (cs : List Char) : Option (List Char) :=
  if !atBoundary prev cs.head? then none
  else
    (exactDigits 3 cs).bind (fun c1 =>
      firstSome (optConsume ssnSep c1) (fun c2 =>
        (exactDigits 2 c2).bind (fun c3 =>
          firstSome (optConsume ssnSep c3) (fun c4 =>
            (exactDigits 4 c4).bind (fun c5 =>
              if atBoundary (some '0') c5.head? then some c5 else none)))))

/-- Identifier class `[A-Z0-9\-]` (IGNORECASE) of the MRN pattern. -/
def mrnClass (c : Char) : Bool := isAlnumAZ c || c == '-'

/-- The MRN pattern `\b(?:MRN|Med(?:ical)?\s*Record)\s*[:#]?\s*[A-Z0-9\-]{3,}\b`
(IGNORECASE). -/
def mrnAfter (prev : Option Char) (cs : List Char) : Option (List Char) :=
  if !atBoundary prev cs.head? then none
  else
    let medBranch : Option (List Char) :=
      (ciLit "Med" cs).bind (fun r1 =>
        let alts := match ciLit "ical" r1 with
          | some r2 => [r2, r1]
          | none => [r1]
        firstSome alts (fun r2 =>
          ciLit "Record" (r2.drop (r2.takeWhile isSpaceChar).length)))
    ((ciLit "MRN" cs) <|> medBranch).bind (fun r4 =>
      let r5 := r4.drop (r4.takeWhile isSpaceChar).length
      firstSome (optConsume (fun c => c == ':' || c == '#') r5) (fun r6 =>
        let r7 := r6.drop (r6.takeWhile isSpaceChar).length
        runThenBoundary mrnClass 3 r7))

/-- Date separator class of the DOB pattern: hyphen, slash or dot. -/
def dobSep (c : Char) : Bool := c == '-' || c == '/' || c == '.'

/-- The DOB pattern
`(?:DOB|Birth\s*Date)\s*[:#]?\s*(?:\d{1,2} sep \d{1,2} sep \d{2,4})`
where `sep` is the hyphen/slash/dot class (IGNORECASE, no word boundaries). -/
def dobAfter (_ : Option Char) (cs : List Char) : Option (List Char) :=
  let headPart : Option (List Char) :=
    (ciLit "DOB" cs) <|>
    ((ciLit "Birth" cs).bind (fun r1 =>
      ciLit "Date" (r1.drop (r1.takeWhile isSpaceChar).length)))
  headPart.bind (fun r2 =>
    let r3 := r2.drop (r2.takeWhile isSpaceChar).length
    firstSome (optConsume (fun c => c == ':' || c == '#') r3) (fun r4 =>
      let r5 := r4.drop (r4.takeWhile isSpaceChar).length
      firstSome (digitsRange 1 2 r5) (fun a =>
        match a with
        | c :: rest =>
            if dobSep c then
              firstSome (digitsRange 1 2 rest) (fun b =>
                match b with
                | c2 :: rest2 =>
                    if dobSep c2 then firstSome (digitsRange 2 4 rest2) some
                    else none
                | [] => none)
            else none
        | [] => none)))

/-- The NAME_like pattern `\b([A-Z][a-z]+(?:[-'][A-Z][a-z]+)?\s+[A-Z][a-z]+)\b`
(case-sensitive): a capitalized word, an optional hyphen/apostrophe joined
capitalized part, whitespace, and a second capitalized word. -/
def nameAfter (prev : Option Char) (cs : List Char) : Option (List Char) :=
  if !atBoundary prev cs.head? then none
  else
    match cs with
    | c0 :: r0 =>
        if !isUpperAZ c0 then none
        else
          (takeWhile1 isLowerAZ r0).bind (fun pr1 =>
            let r1 := pr1.2
            let alts : List (List Char) :=
              match r1 with
              | c1 :: c2 :: r2 =>
                  if (c1 == '-' || c1 == apoChar) && isUpperAZ c2 then
                    match takeWhile1 isLowerAZ r2 with
                    | some (_, r3) => [r3, r1]
                    | none => [r1]
                  else [r1]
              | _ => [r1]
            firstSome alts (fun rA =>
              (takeWhile1 isSpaceChar rA).bind (fun prB =>
                match prB.2 with
                | c3 :: r4 =>
                    if !isUpperAZ c3 then none
                    else
                      (takeWhile1 isLowerAZ r4).bind (fun pr5 =>
                        if atBoundary (some 'a') pr5.2.head? then some pr5.2 else none)
                | [] => none)))
    | [] => none

/-- The URL pattern `\bhttps?://[^\s]+` (IGNORECASE). -/
def urlAfter (prev : Option Char) (cs : List Char) : Option (List Char) :=
  if !atBoundary prev cs.head? then none
  else
    (ciLit "http" cs).bind (fun r1 =>
      let alts : List (List Char) :=
        match r1 with
        | c :: rest => if c == 's' || c == 'S' then [rest, r1] else [r1]
        | [] => [r1]
      firstSome alts (fun r2 =>
        (ciLit "://" r2).bind (fun r3 =>
          (takeWhile1 (fun c => !isSpaceChar c) r3).map (·.2))))

/-- The imaging-jargon tokens of `_non_person_hints`. -/
def hintTokens : List String :=
  ["AXIAL", "CORONAL", "SAGITTAL", "T1", "T2", "FLAIR", "AX", "COR", "SAG", "SE", "GRE", "B-VALUE", "ADC"]

/-- One alternative of
`\b(AXIAL|CORONAL|SAGITTAL|T1|T2|FLAIR|AX|COR|SAG|SE|GRE|B\-VALUE|ADC)\b`
(IGNORECASE); every token ends in a word character, so the trailing `\b`
holds iff the next character is not a word character. -/
def hintMatchAt (prev : Option Char) (cs : List Char) : Option (List Char) :=
  if !atBoundary prev cs.head? then none
  else
    firstSome hintTokens (fun tk =>
      (ciLit tk cs).bind (fun rest =>
        if atBoundary (some 'A') rest.head? then some rest else none))

/-- `_non_person_hints.search`. -/
def nonPersonHintsSearch (s : String) : Bool := regexSearch hintMatchAt s

/-- The structured person-name class `[A-Z0-9]` (case-sensitive). -/
def pnClass (c : Char) : Bool := isUpperAZ c || isDigit09 c

/-- The starred segment `(?:[-'][A-Z0-9]+)*` of `_pn_structured`, greedy;
a separator not followed by a class run is left unconsumed. -/
def pnStarSegs : Nat → List Char → List Char
  | 0, cs => cs
  | _, [] => []
  | fuel + 1, c :: rest =>
      if c == '-' || c == apoChar then
        match takeWhile1 pnClass rest with
        | some (_, r2) => pnStarSegs fuel r2
        | none => c :: rest
      else c :: rest

/-- The one-or-more caret groups `(\^[A-Z0-9]{1,}(?:[-'][A-Z0-9]+)*)+` of
`_pn_structured`, greedy. -/
def pnCaretGroups : Nat → List Char → Option (List Char)
  | 0, _ => none
  | fuel + 1, cs =>
      match cs with
      | '^' :: rest =>
          match takeWhile1 pnClass rest with
          | none => none
          | some (_, r2) =>
              let r3 := pnStarSegs r2.length r2
              match pnCaretGroups fuel r3 with
              | some r4 => some r4
              | none => some r3
      | _ => none

/-- `_pn_structured.match`: the anchored full pattern
`^[A-Z0-9]{2,}(?:[-'][A-Z0-9]+)*(\^[A-Z0-9]{1,}(?:[-'][A-Z0-9]+)*)+$`. -/
def pnStructuredMatch (s : String) : Bool :=
  match takeWhile1 pnClass s.data with
  | none => false
  | some (t, r1) =>
      decide (2 ≤ t.length) &&
      (let r2 := pnStarSegs r1.length r1
       match pnCaretGroups r2.length r2 with
       | some [] => true
       | _ => false)

/-- The full-string alternatives of `_anonymized_patterns`
(`^(ANON|ANONYMOUS|REDACTED|REMOVED|UNKNOWN|N/A|null|NA)$`,
`^PATIENT\^TEST$`, `^(TEST|DEMO|SYNTHETIC|DUMMY)$`, all IGNORECASE),
as an uppercase membership test. -/
def anonymizedTexts : List String :=
  ["ANON", "ANONYMOUS", "REDACTED", "REMOVED", "UNKNOWN", "N/A", "NULL", "NA",
   "PATIENT^TEST", "TEST", "DEMO", "SYNTHETIC", "DUMMY"]

/-- Does any `_anonymized_patterns` regex match the whole value? -/
def anonMatch (s : String) : Bool := anonymizedTexts.contains (asciiUpper s)

/-- Collapse runs of consecutive spaces to a single space. -/
def collapseSpaces : List Char → List Char
  | [] => []
  | [c] => [c]
  | a :: b :: rest =>
      if a == ' ' && b == ' ' then collapseSpaces (b :: rest)
      else a :: collapseSpaces (b :: rest)

/-- `_normalize_text_for_match`: replace runs of non-alphanumerics by one
space, collapse whitespace, strip and uppercase. -/
def normalizeForMatch (s : String) : String :=
  asciiUpper (pyStrip (String.mk (collapseSpaces (s.data.map (fun c => if isAlnumAZ c then c else ' ')))))

/-- The keys of `_patterns` in declaration (= dict iteration) order. -/
def patternKeys : List String :=
  ["EMAIL", "PHONE", "SSN", "MRN_like", "DOB_like", "NAME_like", "URL"]

/-- Dispatch a pattern key to its matcher. -/
def patternAfter (key : String) : Option Char → List Char → Option (List Char) :=
  if key = "EMAIL" then emailAfter
  else if key = "PHONE" then phoneAfter
  else if key = "SSN" then ssnAfter
  else if key = "MRN_like" then mrnAfter
  else if key = "DOB_like" then dobAfter
  else if key = "NAME_like" then nameAfter
  else if key = "URL" then urlAfter
  else fun _ _ => none

/-- `self._patterns[key].search(s)`. -/
def patternSearch (key : String) (s : String) : Bool := regexSearch (patternAfter key) s

/-- `finditer`: the (start, end) spans of successive non-overlapping
leftmost matches; scanning resumes at the end of each match. -/
def finditerAux (m : Option Char → List Char → Option (List Char)) :
    Nat → Option Char → Nat → List Char → List (Nat × Nat)
  | 0, _, _, _ => []
  | _, _, _, [] => []
  | fuel + 1, prev, i, c :: rest =>
      match m prev (c :: rest) with
      | some rem =>
          let k := (c :: rest).length - rem.length
          if k == 0 then finditerAux m fuel (some c) (i + 1) rest
          else (i, i + k) :: finditerAux m fuel (((c :: rest).take k).getLast?) (i + k) rem
      | none => finditerAux m fuel (some c) (i + 1) rest

/-- `finditer` spans over a string. -/
def patternFindIter (key : String) (s : String) : List (Nat × Nat) :=
  finditerAux (patternAfter key) (s.data.length + 1) none 0 s.data

/-! ## DICOM values, datasets and text extraction -/

mutual

/-- The shapes of a DICOM element value that the Python text extractors
distinguish: a string, a bytes value (represented by the text its
permissive decode yields), a sequence of values (list/tuple/set/MultiValue),
Python `None`, and any other object represented by its `str()` rendering.
The sequence payload is its own inductive so that the extractors are
structurally recursive (and therefore evaluate by kernel reduction). -/
inductive DicomValue where
  | vstr (s : String)
  | vbytes (s : String)
  | vlist (items : DicomValueSeq)
  | vnone
  | vother (s : String)

/-- The payload of a sequence-shaped DICOM value. -/
inductive DicomValueSeq where
  | nil
  | cons (head : DicomValue) (tail : DicomValueSeq)

end

/-- Build a sequence value from a Lean list of values. -/
def DicomValueSeq.ofList : List DicomValue → DicomValueSeq
  | [] => .nil
  | v :: vs => .cons v (DicomValueSeq.ofList vs)

/-- `_normalize_text`: remove null bytes, strip, truncate to
`_max_normalized_string = 5000` characters. -/
def normalizeText (s : String) : String :=
  let s1 := pyStrip (String.mk (s.data.filter (fun c => c != Char.ofNat 0)))
  if 5000 < s1.data.length then String.mk (s1.data.take 5000) else s1

mutual

/-- The recursive collector of `_textify` (`_simple_scoring.py`): strings
and decoded bytes are normalized and kept when nonempty; sequences flatten;
`None` is dropped; any other object keeps its `str()` only when it contains
a letter, `@` or `^`. -/
def textifyCollect : DicomValue → List String
  | .vstr s => let n := normalizeText s; if n = "" then [] else [n]
  | .vbytes s => let n := normalizeText s; if n = "" then [] else [n]
  | .vlist items => textifyCollectSeq items
  | .vnone => []
  | .vother s =>
      let n := normalizeText s
      if n ≠ "" && n.data.any (fun c => isAlphaAZ c || c == '@' || c == '^') then [n] else []

/-- `_textify` recursion over a sequence value. -/
def textifyCollectSeq : DicomValueSeq → List String
  | .nil => []
  | .cons v vs => textifyCollect v ++ textifyCollectSeq vs

end

/-- `_textify`: collect candidate strings, deduplicated in first-seen order. -/
def textify (v : DicomValue) : List String := dedupFirstSeen (textifyCollect v)

mutual

/-- `textify_dicom_value` (`_functions.py`), the validator-side extractor:
strings pass through unchanged; bytes decode and are truncated at 100
characters with an ellipsis; sequences flatten; anything else — including
`None`, which Python renders as the string `None` — is `str()`-converted. -/
def textifyDicomValue : DicomValue → List String
  | .vstr s => [s]
  | .vbytes s => if s.data.length < 100 then [s] else [String.mk (s.data.take 100) ++ "…"]
  | .vlist items => textifyDicomValueSeq items
  | .vnone => ["None"]
  | .vother s => [s]

/-- `textify_dicom_value` recursion over a sequence value. -/
def textifyDicomValueSeq : DicomValueSeq → List String
  | .nil => []
  | .cons v vs => textifyDicomValue v ++ textifyDicomValueSeq vs

end

/-- The multiset of character counts of a string (`collections.Counter`). -/
def charCounts (s : String) : List Nat :=
  (dedupFirstSeen s.data).map (fun c => s.data.count c)

/-- `_high_entropy`: normalized Shannon entropy above 0.85 with at least 4
distinct symbols. The float comparison
`(log2 L - (1/L) * sum(c_i * log2 c_i)) / log2 k > 0.85` is equivalent to
the exact integer inequality `L ^ (20 L) > (prod c_i ^ c_i) ^ 20 * k ^ (17 L)`
(raise both sides of the log inequality to the 20th power); the strings this
development evaluates are far from the 0.85 boundary, so float rounding
cannot flip the comparison. Strings shorter than 3 characters and strings
with a single distinct symbol are never high-entropy. -/
def highEntropy (s : String) : Bool :=
  let cs := s.data
  if cs.length < 3 then false
  else
    let counts := charCounts s
    let L := cs.length
    let k := counts.length
    if k = 1 then false
    else
      decide (4 ≤ k) &&
      decide ((counts.foldl (fun a c => a * c ^ c) 1) ^ 20 * k ^ (17 * L) < L ^ (20 * L))

/-! ## The heuristic scorer and tag recognizer (`_simple_scoring.py`) -/

/-- `_strict_tags`: person/clinician identity tags, auto-flagged. -/
def strictTags : List (Nat × Nat) :=
  [(0x0010, 0x0010), (0x0010, 0x0030), (0x0010, 0x1000), (0x0010, 0x1001), (0x0010, 0x4000),
   (0x0008, 0x0090), (0x0008, 0x1048), (0x0008, 0x1050), (0x0008, 0x1060), (0x0008, 0x1070)]

/-- `_medium_tags`. -/
def mediumTags : List (Nat × Nat) :=
  [(0x0010, 0x0020), (0x0010, 0x2160), (0x0010, 0x2180), (0x0010, 0x1040), (0x0010, 0x0035),
   (0x0010, 0x1060), (0x0018, 0x1000)]

/-- `_contextual_low_risk_tags`. -/
def contextualLowRiskTags : List (Nat × Nat) :=
  [(0x0008, 0x0080), (0x0008, 0x0081), (0x0008, 0x1030), (0x0008, 0x103E), (0x0008, 0x2111),
   (0x0020, 0x4000)]

/-- `_free_text_VRs`. -/
def freeTextVRs : List String :=
  ["AE", "AS", "CS", "LO", "LT", "PN", "SH", "ST", "UC", "UT", "UR"]

/-- `_vendor_safe_tags`. -/
def vendorSafeTags : List String :=
  ["Manufacturer", "ManufacturerModelName", "DeviceManufacturerName", "SoftwareVersions"]

/-- `_vendor_allow_list`. -/
def vendorAllowList : List String :=
  ["SIEMENS", "SIEMENS MEDICAL SYSTEMS", "GE", "GE HEALTHCARE", "GE MEDICAL SYSTEMS",
   "PHILIPS", "PHILIPS MEDICAL SYSTEMS", "CANON MEDICAL", "AGFA", "FUJIFILM", "VARIAN", "HITACHI"]

/-- `_name_like_allowed_tags`. -/
def nameLikeAllowedTags : List String :=
  ["PatientName", "ReferringPhysicianName", "PhysiciansOfRecord", "PerformingPhysicianName",
   "NameOfPhysiciansReadingStudy", "OperatorsName"]

/-- Binary value representations skipped by the tag walk. -/
def binaryVRs : List String := ["OB", "OW", "OF", "OD", "OL", "OV", "UN"]

/-- `_suppress_institution_names`. -/
def suppressInstitutionNames : Bool := true

/-- Abstraction of Python `str(float)` used only inside description text
(no claim inspects it); rendered with two decimals. -/
def pyFloatStr (q : ℚ) : String := formatScore2 q

/-- The clamp `max(0.0, min(1.0, score))`, written with conditionals so it
evaluates by kernel reduction. -/
def ratClamp01 (q : ℚ) : ℚ := if q < 0 then 0 else if 1 < q then 1 else q

/-- `_score`: the heuristic confidence. A placeholder match short-circuits
to 0.1; otherwise base 0.1, plus 0.6/0.2/0.0 for strict/medium/contextual
tags, plus 0.15 for free-text VRs, plus the per-pattern bonus (0.5 for
EMAIL/PHONE/SSN, 0.35 for MRN_like/DOB_like, 0.2 − 0.15-if-jargon for
NAME_like, 0.30 for PN_structured), minus 0.35 when the VR is PN but the
value matches neither name grammar. The final clamp and the placeholder
short-circuit live in `scoreHeuristic` below; together they are `_score`. -/
def scoreRaw (t : Tag) (vr : Option String) (text : String) (matchedKey : Option String) : ℚ :=
  let s0 : ℚ := 0.1
  let tg := (t.group, t.element)
  let s1 := if strictTags.contains tg then s0 + 0.6
    else if mediumTags.contains tg then s0 + 0.2
    else if contextualLowRiskTags.contains tg then s0 + 0.0
    else s0
  let s2 := if (match vr with | some v => freeTextVRs.contains v | none => false)
    then s1 + 0.15 else s1
  let s3 := match matchedKey with
    | some k =>
        if k = "EMAIL" || k = "PHONE" || k = "SSN" then s2 + 0.5
        else if k = "MRN_like" || k = "DOB_like" then s2 + 0.35
        else if k = "NAME_like" then
          (if nonPersonHintsSearch text then s2 + 0.2 - 0.15 else s2 + 0.2)
        else if k = "PN_structured" then s2 + 0.30
        else s2
    | none => s2
  if vr == some "PN" && !(pnStructuredMatch text || patternSearch "NAME_like" text)
    then s3 - 0.35 else s3

/-- The body of `_score` after the placeholder short-circuit: the summed
bonuses of `scoreRaw` on the stripped text, clamped into [0, 1]. -/
def scoreHeuristic (t : Tag) (vr : Option String) (value : String) (matchedKey : Option String) : ℚ :=
  let text := pyStrip value
  if anonMatch text then 0.1
  else ratClamp01 (scoreRaw t vr text matchedKey)

/-- A pixel-data frame, represented by the text its OCR yields
(`pytesseract` is an external collaborator; `_recognize_characters`
catches its own exceptions and never raises). -/
structure Frame where
  ocrText : String
deriving DecidableEq, Repr

/-- How the dataset's `pixel_array` property behaves. The `hasattr` call in
`_extract_frames` is outside every `try` block and can raise (the source
comments say so); an exception while reading the property inside the `try`
is caught and leaves the frame list empty. -/
inductive PixelAccess where
  | absent
  | hasattrRaises (msg : String)
  | accessRaises (msg : String)
  | frames (fs : List Frame)
deriving Repr

/-- Python exceptions this embedding distinguishes. -/
inductive PyErr where
  | raised (msg : String)
  | nameError (n : String)
deriving DecidableEq, Repr

/-- One element as yielded by `_iter_over_dicom_elements`: the dotted path,
the raw value, the value representation, the tag, and the keyword that
`ds.get_item`/`datadict.keyword_for_tag` resolve for the tag. Sequence
(`SQ`) items are modelled pre-flattened into this stream, exactly the
iterator's output; the path annotation is carried but never read by the
recognizer. -/
structure DElement where
  path : String
  value : DicomValue
  vr : Option String
  tag : Tag
  keyword : String

/-- A parsed DICOM dataset as the recognizer observes it: the `filename`
attribute pydicom sets, the flattened element stream, and the pixel-data
behavior. -/
structure Dataset where
  filename : String
  elements : List DElement
  pixels : PixelAccess

/-- `_displayable_str` with the default limit of 80 characters. -/
def displayableStr (s : String) : String :=
  if 80 < s.data.length then String.mk (s.data.take 80) ++ "…" else s

/-- `_recognize_tags`: walk the elements; skip binary VRs and (suppressed)
institution names; auto-flag strict-tag values that are not placeholders
(`anonymized` substring) and not high-entropy; then run the pattern battery
over every candidate, with structured-name short-circuit and the
NAME_like/vendor suppressions. Every finding's `file` is `ds.filename` — a
plain string, not a `PotentialFile`. -/
def recognizeTags (ds : Dataset) : List Finding :=
  (ds.elements.map (fun e =>
    if (match e.vr with | some v => binaryVRs.contains v | none => false) then []
    else
      let candidates := textify e.value
      if suppressInstitutionNames && (e.tag.group, e.tag.element) = (0x0008, 0x0080) then []
      else
        let strictFindings :=
          if strictTags.contains (e.tag.group, e.tag.element) then
            let tagKeyword := keywordForTag e.tag
            candidates.filterMap (fun c0 =>
              let c := pyStrip c0
              if strContains (asciiLower c) "anonymized" then none
              else if highEntropy c then none
              else if c ≠ "" then
                let sc := scoreHeuristic e.tag e.vr c none
                some (Finding.header (.rawPath ds.filename) (displayableStr c) sc (some e.tag)
                  (some ("Strict high-risk tag \"" ++ tagKeyword ++
                    "\" may need closer look with score " ++ pyFloatStr sc)))
              else none)
          else []
        let tagKeyword := e.keyword
        let vendorContext := vendorSafeTags.contains tagKeyword
        let allowNameLikeHere := nameLikeAllowedTags.contains tagKeyword || e.vr == some "PN"
        let patternFindings := (candidates.map (fun c =>
          if pyStrip c = "" then []
          else if allowNameLikeHere && pnStructuredMatch c then
            [Finding.header (.rawPath ds.filename) (displayableStr c)
              (scoreHeuristic e.tag e.vr c (some "PN_structured")) (some e.tag)
              (some ("Structured name detection «" ++ c ++ "»"))]
          else
            patternKeys.filterMap (fun key =>
              if key = "NAME_like" && !allowNameLikeHere then none
              else if key = "NAME_like" && vendorContext &&
                  vendorAllowList.contains (normalizeForMatch c) then none
              else if patternSearch key c then
                some (Finding.header (.rawPath ds.filename) (displayableStr c)
                  (scoreHeuristic e.tag e.vr c (some key)) (some e.tag)
                  (some ("Using pattern " ++ key)))
              else none))).flatten
        strictFindings ++ patternFindings)).flatten

/-- `_extract_frames`: `hasattr(ds, 'pixel_array')` runs outside any `try`
and may raise; an exception while reading the array inside the `try` is
caught, leaving no frames; otherwise up to `max_frames = 4` sampled,
normalized frames result (sampling and 8-bit normalization act on external
numpy/PIL objects and are modelled by the frame list itself). -/
def extractFrames (ds : Dataset) : Except PyErr (List Frame) :=
  match ds.pixels with
  | .hasattrRaises m => .error (.raised m)
  | .absent => .ok []
  | .accessRaises _ => .ok []
  | .frames fs => .ok (fs.take 4)

/-- Slice `text[max(0, s − 24) : e + 24]`, the ±24-character excerpt. -/
def excerptSlice (cs : List Char) (s e : Nat) : String :=
  let a := s - 24
  String.mk ((cs.drop a).take (e + 24 - a))

/-- `_recognize_pixels`: on an extraction exception the `except` branch
builds an `ErrorFinding`, but the very next statement `if not frames:` reads
the local variable `frames`, which was never assigned on that path, so
Python raises `UnboundLocalError` (a `NameError`) and the finding is
discarded; otherwise every pattern match over each frame's OCR text becomes
an `ImageFinding` with the fixed `IMAGE_SCORE`, the pattern name, the frame
index and a ±24-character excerpt. `file` is again the `ds.filename`
string. -/
def recognizePixels (ds : Dataset) : Except PyErr (List Finding) :=
  match extractFrames ds with
  | .error _ => .error (.nameError "frames")
  | .ok frames =>
      if frames.isEmpty then .ok []
      else .ok ((frames.enum.map (fun fi =>
        let text := fi.2.ocrText
        if text = "" then []
        else (patternKeys.map (fun key =>
          (patternFindIter key text).map (fun se =>
            Finding.image (.rawPath ds.filename)
              (displayableStr (excerptSlice text.data se.1 se.2))
              IMAGE_SCORE key (Int.ofNat fi.1)))).flatten)).flatten)

/-- `recognize`: the concatenation of the tag findings and the pixel
findings; an exception from the pixel path propagates and the tag findings
are lost. -/
def recognize (ds : Dataset) : Except PyErr (List Finding) :=
  match recognizePixels ds with
  | .error e => .error e
  | .ok ps => .ok (recognizeTags ds ++ ps)

/-! ## The regex validator framework (`validators/_base.py`) -/

/-- A dataset as the validators observe it through
`dcmread(...).get_item(tag)`: a tag-to-value map. -/
structure TagDataset where
  items : List (Tag × DicomValue)

/-- `ds.get_item(tag)`. -/
def TagDataset.getItem (ds : TagDataset) (t : Tag) : Option DicomValue :=
  (ds.items.find? (fun p => decide (p.1 = t))).map (·.2)

/-- The `tag missing` finding of `RegexValidator.validate`. -/
def mkTagMissing (pf : PotentialFile) (t : Tag) : Finding :=
  .validation (.descriptor pf) "tag missing" defaultFindingScore (some t)
    (some "Required tag not found in DICOM dataset")

/-- The `value missing` finding of `RegexValidator.validate`. -/
def mkValueMissing (pf : PotentialFile) (t : Tag) : Finding :=
  .validation (.descriptor pf) "value missing" defaultFindingScore (some t)
    (some "Tag found but missing a value in DICOM dataset")

/-- The pattern-mismatch finding of `RegexValidator.validate` for one
failing (stripped) value. -/
def mkMismatch (pf : PotentialFile) (t : Tag) (descr : String) (v : String) : Finding :=
  .validation (.descriptor pf) v defaultFindingScore (some t)
    (some ("Value for tag does not match expected pattern: " ++ descr))

/-- The `for v in value:` loop of `RegexValidator.validate`, parameterized
by the overridable `_match_pattern` method, which may raise
(`CaseInsensitiveAndWarningRegexValidator._CaseMismatchError` carrying the
value); blank values are skipped, each failing value appends its own
finding, and a raised exception aborts the loop, discarding the findings
gathered so far. -/
def loopVals (m : String → Except String Bool) (pf : PotentialFile) (t : Tag) (descr : String) :
    List String → Except String (List Finding)
  | [] => .ok []
  | v :: rest =>
      let v1 := pyStrip v
      if v1 = "" then loopVals m pf t descr rest
      else
        match m v1 with
        | .error e => .error e
        | .ok b =>
            match loopVals m pf t descr rest with
            | .error e => .error e
            | .ok more => .ok (if b then more else mkMismatch pf t descr v1 :: more)

/-- `RegexValidator.validate`, parameterized by `_match_pattern`: a missing
element gives one `tag missing` finding; an element whose extracted values
are all blank gives one `value missing` finding; otherwise each non-blank
value is tested independently. -/
def validateWith (m : String → Except String Bool) (t : Tag) (descr : String)
    (pf : PotentialFile) (ds : TagDataset) : Except String (List Finding) :=
  match ds.getItem t with
  | none => .ok [mkTagMissing pf t]
  | some dv =>
      let vals := textifyDicomValue dv
      if vals.all (fun v => pyStrip v = "") then .ok [mkValueMissing pf t]
      else loopVals m pf t descr vals

/-- A concrete regex-based rule: target tag, human description, and the
compiled pattern's anchored `match` as a boolean predicate. -/
structure RegexRule where
  tag : Tag
  description : String
  accepts : String → Bool

/-- `RegexValidator.validate` for a plain rule, whose `_match_pattern`
returns the match object and never raises. -/
def RegexValidator.validate (r : RegexRule) (pf : PotentialFile) (ds : TagDataset) : List Finding :=
  match validateWith (fun v => .ok (r.accepts v)) r.tag r.description pf ds with
  | .ok fs => fs
  | .error _ => []

/-- A rule of the case-insensitive variant: the exact-case `match` and the
same pattern recompiled with `re.IGNORECASE`. -/
structure CIRule where
  tag : Tag
  description : String
  matchExact : String → Bool
  matchCaseless : String → Bool

/-- `CaseInsensitiveAndWarningRegexValidator._match_pattern`: an exact
match succeeds; a value that only matches case-insensitively raises
`_CaseMismatchError(value)`; otherwise the match fails (returns `None`). -/
def ciMatchPattern (r : CIRule) (v : String) : Except String Bool :=
  if r.matchExact v then .ok true
  else if r.matchCaseless v then .error v
  else .ok false

/-- The `WarningFinding` built by
`CaseInsensitiveAndWarningRegexValidator.validate` from the caught
exception. The constructor call and its description f-string are in the
sources; the `WarningFinding` class itself is Modelled from the spec (its
definition is missing from `_classes.py`). -/
def mkWarning (pf : PotentialFile) (r : CIRule) (v : String) : Finding :=
  let tagName := if tagTruthy (some r.tag) then keywordForTag r.tag else "unknown tag"
  .warning (.descriptor pf) ("«" ++ v ++ "»") defaultFindingScore (some r.tag)
    (some (tagToStr r.tag ++ " Value for " ++ tagName ++
      " matches expected pattern but uses incorrect case; " ++ r.description))

/-- `CaseInsensitiveAndWarningRegexValidator.validate`: run the generic
algorithm; a `_CaseMismatchError` replaces the whole result with the single
warning finding. -/
def ciValidate (r : CIRule) (pf : PotentialFile) (ds : TagDataset) : List Finding :=
  match validateWith (ciMatchPattern r) r.tag r.description pf ds with
  | .ok fs => fs
  | .error v => [mkWarning pf r v]

/-- The first extracted non-blank value that fails the exact-case match but
passes the case-insensitive retry — the value whose processing raises
`_CaseMismatchError` first. -/
def firstCaseMismatch (r : CIRule) : List String → Option String
  | [] => none
  | v :: rest =>
      let v1 := pyStrip v
      if v1 = "" then firstCaseMismatch r rest
      else if r.matchExact v1 then firstCaseMismatch r rest
      else if r.matchCaseless v1 then some v1
      else firstCaseMismatch r rest

/-! ## Report generation (`_classes.py`, `Report.generate_csv_report`) -/

/-- `Report._get_finding_kind`: discriminator to display label (no entry
for `WarningFinding`). -/
def getFindingKind (ftype : String) : String :=
  if ftype = "ErrorFinding" then "❌ Error"
  else if ftype = "ValidationFinding" then "⚠️ Missing Required Tags"
  else if ftype = "HeaderFinding" then "🙈 Possible PHI/PII in Header"
  else if ftype = "ImageFinding" then "🖼️ Possible Burned-in PHI/PII (Pixels)"
  else "❓ Unknown"

/-- `Report._format_finding_tag`: parse the stored `group,element` string
back into a tag and render it with its keyword; any failure (wrong type,
malformed string, falsy tag) yields `unknown tag`. -/
def formatFindingTag (ftype : String) (tag : Option String) : String :=
  if ftype = "ValidationFinding" || ftype = "HeaderFinding" then
    match tag with
    | some tg =>
        if tg = "" then "unknown tag"
        else
          match parseTagStr tg with
          | some t => tagToStr t ++ " (" ++ keywordForTag t ++ ")"
          | none => "unknown tag"
    | none => "unknown tag"
  else "unknown tag"

/-- `Report._format_finding_report`: rebuild the display fields from the
stored row (matching the shape of `report()`, with `description or ''` for
errors, and `pattern or 'unknown'` / `index_val or -1` for image rows). -/
def formatFindingReport (ftype value : String) (score : ℚ) (tag descr pat : Option String)
    (idx : Option Int) : List String :=
  if ftype = "ErrorFinding" then [value, descr.getD ""]
  else if ftype = "ValidationFinding" then
    let detail := if strTruthy descr then
        "Failed core tag validation: " ++ descr.getD "" ++ " — please review for completeness and format"
      else "Failed core tag validation — please review for completeness and format"
    [formatFindingTag ftype tag, "«" ++ value ++ "»", detail]
  else if ftype = "HeaderFinding" then
    let detail := if strTruthy descr then
        "Possible PHI/PII detection (score " ++ formatScore2 score ++ "): " ++ descr.getD ""
      else "Possible PHI/PII detection (score " ++ formatScore2 score ++ ")"
    [formatFindingTag ftype tag, "«" ++ value ++ "»", detail]
  else if ftype = "ImageFinding" then
    [value, "Detected with pattern " ++ pyOrStr pat "unknown" ++ " at frame index " ++
      toString (pyOrInt idx (-1))]
  else [value]

/-- One emitted CSV detail row: Site ID, Event ID, File Name, Score,
Findings (the kind label) and Details. -/
structure CsvRow where
  site : String
  event : String
  fileName : String
  score : ℚ
  kind : String
  details : String
deriving DecidableEq, Repr

/-- Insert into an insertion-ordered association list (Python
`defaultdict` preserves first-insertion key order). -/
def assocUpdate [DecidableEq κ] (k : κ) (upd : β → β) (dflt : β) : List (κ × β) → List (κ × β)
  | [] => [(k, upd dflt)]
  | (k1, v) :: rest =>
      if k1 = k then (k1, upd v) :: rest else (k1, v) :: assocUpdate k upd dflt rest

/-- The nested site → event → file grouping of `_organize_report`. -/
abbrev Org := List (String × List (String × List (String × List Finding)))

/-- Append one finding into the nested grouping under its
`organization_parts()` keys (site ID, event ID, file **path**). -/
def orgInsert (site event fname : String) (f : Finding) (o : Org) : Org :=
  assocUpdate site (fun events =>
    assocUpdate event (fun files =>
      assocUpdate fname (fun fs => fs ++ [f]) [] files) [] events) [] o

/-- `Report._organize_report`: group the findings list by
`organization_parts()`; a finding whose `file` is a plain string raises
`AttributeError`, modelled as `none`. -/
def organizeReport (fs : List Finding) : Option Org :=
  fs.foldlM (fun o f => (f.organizationParts).map (fun p => orgInsert p.1 p.2.1 p.2.2 f o)) []

/-- The rows of one file group in the in-memory branch of
`generate_csv_report`: kinds sorted by their display label, and within a
kind the findings at/above the threshold sorted by score descending; the
details cell is the comma-join of `report()` (joining a `None` part raises,
modelled as `none`). -/
def rowsForFileList (site event fname : String) (θ : ℚ) (findings : List Finding) :
    Option (List CsvRow) :=
  let kinds := sortedDedup (findings.map Finding.kind)
  (kinds.mapM (fun kind =>
    let scored := isortBy (fun a b => Finding.score b < Finding.score a)
      (findings.filter (fun f => decide (θ ≤ f.score) && decide (f.kind = kind)))
    scored.mapM (fun f =>
      (joinPartsOpt f.report).map (fun details =>
        CsvRow.mk site event fname f.score kind details)))).map List.flatten

/-- One (site, event) artifact of the in-memory branch: files iterated
sorted by their grouping key (the path, which is also printed in the File
Name column), rows per file as in `rowsForFileList`. -/
def eventArtifact (site : String) (θ : ℚ) (events : List (String × List (String × List Finding)))
    (event : String) : Option (String × String × List CsvRow) :=
  let files := ((events.find? (fun p => decide (p.1 = event))).map (·.2)).getD []
  let sortedNames := isortBy strLt (files.map (·.1))
  (sortedNames.mapM (fun fname =>
    let fsF := ((files.find? (fun p => decide (p.1 = fname))).map (·.2)).getD []
    rowsForFileList site event fname θ fsF)).map (fun rowss => (site, event, rowss.flatten))

/-- The in-memory branch of `generate_csv_report`: one artifact per
(site, event) pair, sites in first-insertion order, events sorted. -/
def generateCsvFromList (fs : List Finding) (θ : ℚ) :
    Option (List (String × String × List CsvRow)) :=
  (organizeReport fs).bind (fun org =>
    ((org.mapM (fun se =>
      (isortBy strLt (se.2.map (·.1))).mapM (eventArtifact se.1 θ se.2))).map
      List.flatten))

/-- The `ORDER BY event_id, file_path, finding_type, score DESC` comparator
of the database query (SQLite orders TEXT by bytes, which agrees with
code-point order on these UTF-8 strings). -/
def queryLt (a b : DBRow) : Bool :=
  strLt a.event_id b.event_id ||
  (decide (a.event_id = b.event_id) && (strLt a.file_path b.file_path ||
    (decide (a.file_path = b.file_path) && (strLt a.finding_type b.finding_type ||
      (decide (a.finding_type = b.finding_type) && decide (b.score < a.score))))))

/-- The database branch of `generate_csv_report`: sites from
`SELECT DISTINCT ... ORDER BY site_id` (threshold applied in SQL), one
artifact per (site, event); within one the rows stream sorted by the query
order, regrouped by event, file path and finding type (each group keeping
stream order), events/files/types iterated in sorted order, scores re-sorted
descending, the File Name column showing `os.path.basename(file_path)` and
the details from `_format_finding_report`. -/
def generateCsvFromDb (db : List DBRow) (θ : ℚ) : List (String × String × List CsvRow) :=
  let sites := sortedDedup ((db.filter (fun r => decide (θ ≤ r.score))).map (·.site_id))
  (sites.map (fun site =>
    let rows := isortBy queryLt
      (db.filter (fun r => decide (r.site_id = site) && decide (θ ≤ r.score)))
    let events := sortedDedup (rows.map (·.event_id))
    events.map (fun event =>
      let erows := rows.filter (fun r => decide (r.event_id = event))
      let files := sortedDedup (erows.map (·.file_path))
      (site, event, (files.map (fun fp =>
        let fname := basename fp
        let frows := erows.filter (fun r => decide (r.file_path = fp))
        let types := sortedDedup (frows.map (·.finding_type))
        (types.map (fun ftype =>
          let kind := getFindingKind ftype
          let sorted2 := isortBy (fun a b => decide (b.score < a.score))
            (frows.filter (fun r => decide (r.finding_type = ftype)))
          sorted2.map (fun r =>
            CsvRow.mk site event fname r.score kind
              (joinComma (formatFindingReport ftype r.value r.score r.tag r.description
                r.pattern r.index_val))))).flatten)).flatten)))).flatten

/-! ## Concrete scenarios used by the claim theorems -/

/-- A single-element dataset holding one strict-tag value, as the
recognizer's metadata path sees it. -/
def strictValueDs (t : Tag) (vr kw v : String) : Dataset :=
  { filename := "f.dcm",
    elements := [{ path := kw, value := DicomValue.vstr v, vr := some vr, tag := t, keyword := kw }],
    pixels := PixelAccess.absent }

/-- The ten strict-risk tags with their standard DICOM value representation
and keyword. -/
def strictTagInfo : List (Tag × String × String) :=
  [(⟨0x0010, 0x0010⟩, "PN", "PatientName"),
   (⟨0x0010, 0x0030⟩, "DA", "PatientBirthDate"),
   (⟨0x0010, 0x1000⟩, "LO", "OtherPatientIDs"),
   (⟨0x0010, 0x1001⟩, "PN", "OtherPatientNames"),
   (⟨0x0010, 0x4000⟩, "LT", "PatientComments"),
   (⟨0x0008, 0x0090⟩, "PN", "ReferringPhysicianName"),
   (⟨0x0008, 0x1048⟩, "PN", "PhysiciansOfRecord"),
   (⟨0x0008, 0x1050⟩, "PN", "PerformingPhysicianName"),
   (⟨0x0008, 0x1060⟩, "PN", "NameOfPhysiciansReadingStudy"),
   (⟨0x0008, 0x1070⟩, "PN", "OperatorsName")]

/-- The strict-risk person-name tags (value representation PN) with their
keywords. -/
def strictPersonNameTagInfo : List (Tag × String) :=
  [(⟨0x0010, 0x0010⟩, "PatientName"),
   (⟨0x0010, 0x1001⟩, "OtherPatientNames"),
   (⟨0x0008, 0x0090⟩, "ReferringPhysicianName"),
   (⟨0x0008, 0x1048⟩, "PhysiciansOfRecord"),
   (⟨0x0008, 0x1050⟩, "PerformingPhysicianName"),
   (⟨0x0008, 0x1060⟩, "NameOfPhysiciansReadingStudy"),
   (⟨0x0008, 0x1070⟩, "OperatorsName")]

/-- A dataset with one structured person name in `PatientName`, producing
one header finding through the recognizer. -/
def dsDoe : Dataset :=
  { filename := "Images_Site_AB12/1234567/scan.dcm",
    elements := [{ path := "PatientName", value := DicomValue.vstr "DOE^JOHN",
                   vr := some "PN", tag := ⟨0x0010, 0x0010⟩, keyword := "PatientName" }],
    pixels := PixelAccess.absent }

/-- The `dsDoe` dataset with pixel data whose `hasattr(ds, 'pixel_array')`
probe raises. -/
def dsPixelBoom : Dataset :=
  { filename := "Images_Site_AB12/1234567/scan2.dcm",
    elements := [{ path := "PatientName", value := DicomValue.vstr "DOE^JANE",
                   vr := some "PN", tag := ⟨0x0010, 0x0010⟩, keyword := "PatientName" }],
    pixels := PixelAccess.hasattrRaises "corrupt transfer syntax" }

/-- The file descriptor of the report/persistence scenarios. -/
def pfSub : PotentialFile := PotentialFile.construct "Images_Site_AB12/1234567/sub/scan.dcm" none none

/-- An image finding whose frame index is 0. -/
def imageFindingIdx0 : Finding :=
  .image (.descriptor pfSub) "555-12-3456" IMAGE_SCORE "SSN" 0

/-- Two findings of different kinds on the same file, for the report
comparison. -/
def findingsC3 : List Finding :=
  [ .validation (.descriptor pfSub) "2024-01-31" 1 (some ⟨0x0008, 0x0020⟩)
      (some "StudyDate must be a valid date in YYYYMMDD format"),
    .error (.descriptor pfSub) "read failure" 1 (some "boom") ]

/-- The database rows `_write_finding_to_db` stores for `findingsC3`. -/
def dbRowsC3 : List DBRow :=
  [ { file_path := "Images_Site_AB12/1234567/sub/scan.dcm", site_id := "Images_Site_AB12",
      event_id := "1234567", file_name := "sub/scan.dcm", finding_type := "ValidationFinding",
      value := "2024-01-31", score := 1, tag := some "8,32",
      description := some "StudyDate must be a valid date in YYYYMMDD format",
      pattern := none, index_val := none },
    { file_path := "Images_Site_AB12/1234567/sub/scan.dcm", site_id := "Images_Site_AB12",
      event_id := "1234567", file_name := "sub/scan.dcm", finding_type := "ErrorFinding",
      value := "read failure", score := 1, tag := none, description := some "boom",
      pattern := none, index_val := none } ]

/-- A case-insensitive-variant rule for the Modality tag restricted to four
uppercase codes; `matchCaseless` is the same alternation compiled with
`re.IGNORECASE`. -/
def ruleC5 : CIRule :=
  { tag := ⟨0x0008, 0x0060⟩,
    description := "Modality must be one of the uppercase codes CT, MR, MG, PT",
    matchExact := fun v => ["CT", "MR", "MG", "PT"].contains v,
    matchCaseless := fun v => ["CT", "MR", "MG", "PT"].contains (asciiUpper v) }

/-- A dataset whose Modality element carries two values: one failing both
matches and one failing only by letter case. -/
def dsC5 : TagDataset :=
  ⟨[(⟨0x0008, 0x0060⟩, DicomValue.vlist (DicomValueSeq.ofList [.vstr "Q!", .vstr "mr"]))]⟩

/-- A concrete rule of the catalog: `StudyDateValidator` (a
`YMDValidator`), whose regex is the anchored `^[0-9]{8}$`. -/
def dateRule : RegexRule :=
  { tag := ⟨0x0008, 0x0020⟩,
    description := "StudyDate must be a valid date in YYYYMMDD format",
    accepts := fun v => v.data.length = 8 && v.data.all isDigit09 }

/-- A StudyDate value that fails the eight-digit rule. -/
def dateValue : DicomValue := .vstr "2024-01-31"

/-- A dataset holding the failing StudyDate value. -/
def dsDate : TagDataset := ⟨[(⟨0x0008, 0x0020⟩, dateValue)]⟩

/-! ## Helper lemmas shared by the claim proofs -/

/-- The score a strict PN-typed tag assigns to the value `John Smith`
matched by NAME_like: 0.1 + 0.6 + 0.15 + 0.2 = 1.05, clamped to 1. -/
theorem scoreHeuristic_john_smith (t : Tag)
    (ht : strictTags.contains (t.group, t.element) = true) :
    scoreHeuristic t (some "PN") "John Smith" (some "NAME_like") = 1 := by
  simp only [scoreHeuristic, scoreRaw,
    show pyStrip "John Smith" = "John Smith" from rfl,
    show anonMatch "John Smith" = false from rfl, ht,
    show freeTextVRs.contains "PN" = true from rfl,
    show nonPersonHintsSearch "John Smith" = false from rfl,
    show pnStructuredMatch "John Smith" = false from rfl,
    show patternSearch "NAME_like" "John Smith" = true from rfl]
  norm_num [ratClamp01,
    show ("NAME_like" : String) ≠ "EMAIL" from by decide,
    show ("NAME_like" : String) ≠ "PHONE" from by decide,
    show ("NAME_like" : String) ≠ "SSN" from by decide,
    show ("NAME_like" : String) ≠ "MRN_like" from by decide,
    show ("NAME_like" : String) ≠ "DOB_like" from by decide]

/-- The clamp keeps every heuristic sum inside the unit interval. -/
theorem ratClamp01_bounds (q : ℚ) : 0 ≤ ratClamp01 q ∧ ratClamp01 q ≤ 1 := by
  unfold ratClamp01
  split_ifs with h1 h2
  · norm_num
  · norm_num
  · constructor <;> linarith

/-- The per-value mismatch findings of the generic regex algorithm: each
non-blank extracted value failing the rule predicate contributes its own
finding, in order; blank and passing values contribute none. -/
def mismatchFindings (r : RegexRule) (pf : PotentialFile) (vs : List String) : List Finding :=
  vs.filterMap (fun v =>
    if pyStrip v = "" then none
    else if r.accepts (pyStrip v) then none
    else some (mkMismatch pf r.tag r.description (pyStrip v)))

/-- With a matcher that never raises, the value loop returns exactly the
mismatch findings. -/
theorem loopVals_ok (m : String → Bool) (pf : PotentialFile) (t : Tag) (d : String) :
    ∀ vs : List String,
      loopVals (fun v => .ok (m v)) pf t d vs =
        .ok (vs.filterMap (fun v =>
          if pyStrip v = "" then none
          else if m (pyStrip v) then none
          else some (mkMismatch pf t d (pyStrip v))))
  | [] => rfl
  | v :: rest => by
      simp only [loopVals, List.filterMap_cons]
      rw [loopVals_ok m pf t d rest]
      by_cases h1 : pyStrip v = ""
      · simp [h1]
      · by_cases h2 : m (pyStrip v)
        · simp [h1, h2]
        · simp [h1, h2]

/-- `validateWith` on a never-raising matcher never raises, and returns the
three-case result of the generic algorithm. -/
theorem validateWith_pure (r : RegexRule) (pf : PotentialFile) (ds : TagDataset) :
    validateWith (fun v => .ok (r.accepts v)) r.tag r.description pf ds =
      .ok (match ds.getItem r.tag with
        | none => [mkTagMissing pf r.tag]
        | some dv =>
            if (textifyDicomValue dv).all (fun v => pyStrip v = "") then [mkValueMissing pf r.tag]
            else mismatchFindings r pf (textifyDicomValue dv)) := by
  unfold validateWith
  cases ds.getItem r.tag with
  | none => rfl
  | some dv =>
      simp only
      split
      · rfl
      · rw [loopVals_ok]
        rfl

/-- The three-case characterization of `RegexValidator.validate`. -/
theorem validate_eq (r : RegexRule) (pf : PotentialFile) (ds : TagDataset) :
    RegexValidator.validate r pf ds =
      match ds.getItem r.tag with
      | none => [mkTagMissing pf r.tag]
      | some dv =>
          if (textifyDicomValue dv).all (fun v => pyStrip v = "") then [mkValueMissing pf r.tag]
          else mismatchFindings r pf (textifyDicomValue dv) := by
  unfold RegexValidator.validate
  rw [validateWith_pure]

/-- A first case-mismatching value makes the value loop raise it,
discarding the findings accumulated before it. -/
theorem firstCaseMismatch_loopVals (r : CIRule) (pf : PotentialFile) (d : String) :
    ∀ vs w, firstCaseMismatch r vs = some w →
      loopVals (ciMatchPattern r) pf r.tag d vs = .error w
  | [], w, h => by simp [firstCaseMismatch] at h
  | v :: rest, w, h => by
      simp only [firstCaseMismatch] at h
      simp only [loopVals, ciMatchPattern]
      by_cases h1 : pyStrip v = ""
      · rw [if_pos h1] at h
        rw [if_pos h1]
        exact firstCaseMismatch_loopVals r pf d rest w h
      · rw [if_neg h1] at h
        rw [if_neg h1]
        by_cases h2 : r.matchExact (pyStrip v) = true
        · rw [if_pos h2] at h
          rw [if_pos h2]
          rw [firstCaseMismatch_loopVals r pf d rest w h]
        · rw [if_neg h2] at h
          rw [if_neg h2]
          by_cases h3 : r.matchCaseless (pyStrip v) = true
          · rw [if_pos h3] at h
            rw [if_pos h3]
            injection h with h
            rw [h]
          · rw [if_neg h3] at h
            rw [if_neg h3]
            rw [firstCaseMismatch_loopVals r pf d rest w h]

/-- A list containing a case-mismatching value is not all-blank. -/
theorem firstCaseMismatch_not_blank (r : CIRule) :
    ∀ vs w, firstCaseMismatch r vs = some w →
      (vs.all fun v => decide (pyStrip v = "")) = false
  | [], w, h => by simp [firstCaseMismatch] at h
  | v :: rest, w, h => by
      simp only [firstCaseMismatch] at h
      simp only [List.all_cons]
      by_cases h1 : pyStrip v = ""
      · rw [if_pos h1] at h
        rw [firstCaseMismatch_not_blank r rest w h]
        simp
      · simp [h1]

/-! ## Claim theorems -/

/-- The details cell shared by both report paths for the validation row. -/
def detailsValidationC3 : String :=
  "(0008, 0020) (StudyDate), «2024-01-31», Failed core tag validation: StudyDate must be a valid date in YYYYMMDD format — please review for completeness and format"

/-- C1. The claim states that every finding produced by any operation of
the system references a valid file descriptor (a `PotentialFile` with
path, site_id, event_id and file_name), so that `organization_parts()` and
the durable-store writer `_write_finding_to_db` are well-defined for every
finding. The recognizer violates it: its findings carry `ds.filename`, a
plain string, on which both consumers raise `AttributeError`. This theorem
evaluates the code at a failing input: the metadata path produces one
finding for a structured patient name, and on it both consumers are
undefined. -/
theorem C1_recognizer_finding_file_descriptor_bug :
    (recognizeTags dsDoe).length = 1 ∧
    ∀ f ∈ recognizeTags dsDoe, f.organizationParts = none ∧ writeFindingToDb f = none := by
  refine ⟨rfl, ?_⟩
  intro f hf
  have hfe := List.eq_of_mem_singleton hf
  subst hfe
  exact ⟨rfl, rfl⟩

/-- C2. The claim states the write/reconstruct round trip preserves
`kind()` and the ordered display fields `report()` for every variant, in
particular for an image finding whose frame index is 0. The reconstruction
uses `index_val or -1`, and `0` is falsy in Python, so a stored frame index
0 comes back as −1: the kind survives but the reports differ. -/
theorem C2_roundtrip_frame_index_zero_bug :
    ((writeFindingToDb imageFindingIdx0).bind loadFindingFromDb) =
      some (.image (.descriptor pfSub) "555-12-3456" IMAGE_SCORE "SSN" (-1)) ∧
    ((writeFindingToDb imageFindingIdx0).bind loadFindingFromDb).map Finding.kind =
      some imageFindingIdx0.kind ∧
    ((writeFindingToDb imageFindingIdx0).bind loadFindingFromDb).map Finding.report ≠
      some imageFindingIdx0.report := by
  refine ⟨rfl, rfl, ?_⟩
  decide

/-- C3. The claim states the in-memory and the durable-store report paths
emit identical rows with identical grouping and ordering (File Name column
included). They do not: for one validation and one error finding on the
same file, the in-memory branch prints the full path in the File Name
column and orders kinds by display label (⚠️ before ❌), while the
database branch prints the basename and orders by class name
(`ErrorFinding` before `ValidationFinding`). -/
theorem C3_report_source_divergence_bug :
    findingsC3.mapM writeFindingToDb = some dbRowsC3 ∧
    generateCsvFromList findingsC3 PHI_PII_THRESHOLD = some
      [("Images_Site_AB12", "1234567",
        [⟨"Images_Site_AB12", "1234567", "Images_Site_AB12/1234567/sub/scan.dcm", 1,
          "⚠️ Missing Required Tags", detailsValidationC3⟩,
         ⟨"Images_Site_AB12", "1234567", "Images_Site_AB12/1234567/sub/scan.dcm", 1,
          "❌ Error", "read failure, boom"⟩])] ∧
    generateCsvFromDb dbRowsC3 PHI_PII_THRESHOLD =
      [("Images_Site_AB12", "1234567",
        [⟨"Images_Site_AB12", "1234567", "scan.dcm", 1, "❌ Error", "read failure, boom"⟩,
         ⟨"Images_Site_AB12", "1234567", "scan.dcm", 1,
          "⚠️ Missing Required Tags", detailsValidationC3⟩])] ∧
    generateCsvFromList findingsC3 PHI_PII_THRESHOLD ≠
      some (generateCsvFromDb dbRowsC3 PHI_PII_THRESHOLD) := by
  refine ⟨rfl, rfl, rfl, ?_⟩
  decide

/-- C4. The claim states that an exception during frame extraction is
caught and converted into exactly one Error finding and that `recognize`
still returns normally, so findings already gathered are not lost. In the
code the `except` branch builds the Error finding but the next statement
reads the unbound local `frames`, raising `UnboundLocalError`; the
exception propagates out of `recognize`, and the header finding gathered
for the file is lost. -/
theorem C4_pixel_exception_unbound_frames_bug :
    recognize dsPixelBoom = .error (.nameError "frames") ∧
    (recognizeTags dsPixelBoom).length = 1 :=
  ⟨rfl, rfl⟩

/-- C5 (counterexample). The claim states that a value failing exact-case
but passing case-insensitively yields a Warning finding while findings for
the file's other values are unaffected. At a Modality element with the two
values `Q!` (fails both matches) and `mr` (case mismatch), the
case-insensitive validator returns only the warning: the mismatch finding
that the generic algorithm produces for `Q!` is discarded. -/
theorem C5_case_warning_counterexample :
    ciValidate ruleC5 pfSub dsC5 = [mkWarning pfSub ruleC5 "mr"] ∧
    mkMismatch pfSub ruleC5.tag ruleC5.description "Q!" ∈
      RegexValidator.validate ⟨ruleC5.tag, ruleC5.description, ruleC5.matchExact⟩ pfSub dsC5 ∧
    mkMismatch pfSub ruleC5.tag ruleC5.description "Q!" ∉ ciValidate ruleC5 pfSub dsC5 := by
  refine ⟨rfl, ?_, ?_⟩ <;> decide

/-- C5 (amended). When some extracted value of the target tag fails the
exact-case match but passes the case-insensitive retry, `validate` of the
case-insensitive variant returns exactly one finding: the Warning finding
for the first such value; findings for the file's other values (including
mismatch findings already gathered) are discarded. -/
theorem C5_case_warning_discards_other_findings
    (r : CIRule) (pf : PotentialFile) (ds : TagDataset) (dv : DicomValue) (w : String)
    (h1 : ds.getItem r.tag = some dv)
    (h2 : firstCaseMismatch r (textifyDicomValue dv) = some w) :
    ciValidate r pf ds = [mkWarning pf r w] := by
  unfold ciValidate validateWith
  rw [h1]
  dsimp only
  rw [if_neg (by rw [firstCaseMismatch_not_blank r _ w h2]; exact Bool.false_ne_true)]
  rw [firstCaseMismatch_loopVals r pf r.description _ w h2]

/-- Witness for the amended C5 at the concrete Modality scenario. -/
theorem C5_case_warning_discards_other_findings_witness :
    (dsC5.getItem ruleC5.tag =
      some (DicomValue.vlist (DicomValueSeq.ofList [.vstr "Q!", .vstr "mr"]))) ∧
    (firstCaseMismatch ruleC5 (textifyDicomValue
      (DicomValue.vlist (DicomValueSeq.ofList [.vstr "Q!", .vstr "mr"]))) = some "mr") ∧
    ciValidate ruleC5 pfSub dsC5 = [mkWarning pfSub ruleC5 "mr"] :=
  ⟨rfl, rfl, C5_case_warning_discards_other_findings ruleC5 pfSub dsC5 _ "mr" rfl rfl⟩

/-- C6. For every strict-risk tag (with its standard VR and keyword), the
de-identification placeholder value `ANONYMOUS` and the high-entropy value
`a8f3x9q2z7` (normalized Shannon entropy above 0.85 with at least 4
distinct symbols) yield no Header finding from the recognizer's metadata
path. -/
theorem C6_placeholder_and_entropy_suppression
    (p : Tag × String × String) (hp : p ∈ strictTagInfo) :
    recognizeTags (strictValueDs p.1 p.2.1 p.2.2 "ANONYMOUS") = [] ∧
    recognizeTags (strictValueDs p.1 p.2.1 p.2.2 "a8f3x9q2z7") = [] := by
  fin_cases hp <;> exact ⟨rfl, rfl⟩

/-- Witness for C6 at the `PatientName` strict tag. -/
theorem C6_placeholder_and_entropy_suppression_witness :
    ((⟨0x0010, 0x0010⟩, "PN", "PatientName") ∈ strictTagInfo) ∧
    (recognizeTags (strictValueDs ⟨0x0010, 0x0010⟩ "PN" "PatientName" "ANONYMOUS") = [] ∧
     recognizeTags (strictValueDs ⟨0x0010, 0x0010⟩ "PN" "PatientName" "a8f3x9q2z7") = []) :=
  ⟨by decide,
   C6_placeholder_and_entropy_suppression (⟨0x0010, 0x0010⟩, "PN", "PatientName") (by decide)⟩

set_option maxHeartbeats 1000000 in
/-- C7. For every strict-risk person-name tag, the value `John Smith`
yields exactly one Header finding from the recognizer's metadata path, and
its score is at least 0.6 (the heuristic sum 1.05 is clamped to 1). -/
theorem C7_john_smith_single_header_finding
    (p : Tag × String) (hp : p ∈ strictPersonNameTagInfo) :
    (recognizeTags (strictValueDs p.1 "PN" p.2 "John Smith")).length = 1 ∧
    ∀ f ∈ recognizeTags (strictValueDs p.1 "PN" p.2 "John Smith"),
      f.kind = "🙈 Possible PHI/PII in Header" ∧ (0.6 : ℚ) ≤ f.score := by
  fin_cases hp <;>
    refine ⟨rfl, ?_⟩ <;>
    intro f hf <;>
    · have hfe := List.eq_of_mem_singleton hf
      subst hfe
      refine ⟨rfl, ?_⟩
      show (0.6 : ℚ) ≤ scoreHeuristic _ (some "PN") "John Smith" (some "NAME_like")
      rw [scoreHeuristic_john_smith _ (by decide)]
      norm_num

set_option maxHeartbeats 1000000 in
/-- Witness for C7 at the `PatientName` tag. -/
theorem C7_john_smith_single_header_finding_witness :
    ((⟨0x0010, 0x0010⟩, "PatientName") ∈ strictPersonNameTagInfo) ∧
    ((recognizeTags (strictValueDs ⟨0x0010, 0x0010⟩ "PN" "PatientName" "John Smith")).length = 1 ∧
     ∀ f ∈ recognizeTags (strictValueDs ⟨0x0010, 0x0010⟩ "PN" "PatientName" "John Smith"),
       f.kind = "🙈 Possible PHI/PII in Header" ∧ (0.6 : ℚ) ≤ f.score) :=
  ⟨by decide,
   C7_john_smith_single_header_finding (⟨0x0010, 0x0010⟩, "PatientName") (by decide)⟩

/-- C8. Every confidence score attached to a finding lies in [0, 1]: the
heuristic score is clamped for every tag, VR, value and matched-pattern
combination, and the fixed scores of image findings (`IMAGE_SCORE`) and
validator findings (the default severity 1.0) also lie in [0, 1]. -/
theorem C8_scores_clamped_in_unit_interval :
    (∀ (t : Tag) (vr : Option String) (v : String) (mkey : Option String),
        0 ≤ scoreHeuristic t vr v mkey ∧ scoreHeuristic t vr v mkey ≤ 1) ∧
    (0 ≤ IMAGE_SCORE ∧ IMAGE_SCORE ≤ 1) ∧
    (0 ≤ defaultFindingScore ∧ defaultFindingScore ≤ 1) := by
  refine ⟨?_, ⟨by decide, by decide⟩,
    ⟨by norm_num [defaultFindingScore], by norm_num [defaultFindingScore]⟩⟩
  intro t vr v mkey
  simp only [scoreHeuristic]
  split
  · norm_num
  · exact ratClamp01_bounds _

/-- C9. The generic regex-validator algorithm: a missing element yields
exactly the one `tag missing` finding; an element whose extracted values
are all empty or whitespace yields exactly the one `value missing`
finding; otherwise each non-blank value is tested independently against
the rule predicate and exactly the failing values produce findings. -/
theorem C9_generic_validator_algorithm
    (r : RegexRule) (pf : PotentialFile) (ds : TagDataset) :
    (ds.getItem r.tag = none → RegexValidator.validate r pf ds = [mkTagMissing pf r.tag]) ∧
    (∀ dv, ds.getItem r.tag = some dv →
      ((∀ v ∈ textifyDicomValue dv, pyStrip v = "") →
        RegexValidator.validate r pf ds = [mkValueMissing pf r.tag]) ∧
      ((¬ ∀ v ∈ textifyDicomValue dv, pyStrip v = "") →
        RegexValidator.validate r pf ds = mismatchFindings r pf (textifyDicomValue dv))) := by
  refine ⟨fun hnone => ?_, fun dv hsome => ⟨fun hblank => ?_, fun hnot => ?_⟩⟩
  · rw [validate_eq, hnone]
  · rw [validate_eq, hsome]
    simp only
    rw [if_pos (by simpa only [List.all_eq_true, decide_eq_true_eq] using hblank)]
  · rw [validate_eq, hsome]
    simp only
    rw [if_neg (by simpa only [List.all_eq_true, decide_eq_true_eq] using hnot)]

/-- Witness for C9: the StudyDate rule on the non-conforming value
`2024-01-31` lands in the per-value branch and produces its mismatch
finding. -/
theorem C9_generic_validator_algorithm_witness :
    (dsDate.getItem dateRule.tag = some dateValue) ∧
    (¬ ∀ v ∈ textifyDicomValue dateValue, pyStrip v = "") ∧
    RegexValidator.validate dateRule pfSub dsDate =
      mismatchFindings dateRule pfSub (textifyDicomValue dateValue) :=
  ⟨rfl, by decide,
   ((C9_generic_validator_algorithm dateRule pfSub dsDate).2 dateValue rfl).2 (by decide)⟩

/-- C10. Every finding produced by the generic regex-validator algorithm
carries the default score 1.0 and therefore meets every reporting
threshold that is at most 1 (so it always populates detail rows). -/
theorem C10_validation_findings_default_score
    (r : RegexRule) (pf : PotentialFile) (ds : TagDataset)
    (f : Finding) (hf : f ∈ RegexValidator.validate r pf ds) :
    f.score = 1 ∧ ∀ θ : ℚ, θ ≤ 1 → θ ≤ f.score := by
  have hs : f.score = 1 := by
    rw [validate_eq] at hf
    rcases hg : ds.getItem r.tag with _ | dv
    · rw [hg] at hf
      dsimp only at hf
      simp only [List.mem_singleton] at hf
      subst hf
      rfl
    · rw [hg] at hf
      dsimp only at hf
      by_cases hb : ((textifyDicomValue dv).all fun v => decide (pyStrip v = "")) = true
      · rw [if_pos hb] at hf
        simp only [List.mem_singleton] at hf
        subst hf
        rfl
      · rw [if_neg hb] at hf
        simp only [mismatchFindings, List.mem_filterMap] at hf
        obtain ⟨v, _, hv⟩ := hf
        by_cases h1 : pyStrip v = ""
        · rw [if_pos h1] at hv
          exact absurd hv (by simp)
        · rw [if_neg h1] at hv
          by_cases h2 : r.accepts (pyStrip v) = true
          · rw [if_pos h2] at hv
            exact absurd hv (by simp)
          · rw [if_neg h2] at hv
            injection hv with hv
            subst hv
            rfl
  exact ⟨hs, fun θ hθ => by rw [hs]; exact hθ⟩

/-- Witness for C10 at the StudyDate mismatch finding. -/
theorem C10_validation_findings_default_score_witness :
    (mkMismatch pfSub dateRule.tag dateRule.description "2024-01-31" ∈
      RegexValidator.validate dateRule pfSub dsDate) ∧
    (Finding.score (mkMismatch pfSub dateRule.tag dateRule.description "2024-01-31") = 1 ∧
     ∀ θ : ℚ, θ ≤ 1 →
       θ ≤ Finding.score (mkMismatch pfSub dateRule.tag dateRule.description "2024-01-31")) :=
  ⟨by decide,
   C10_validation_findings_default_score dateRule pfSub dsDate _ (by decide)⟩

end LabcasValidation
